import Mathlib

/-!
Verification development for the Dubai event-permit chatbot
(`dubai_permit_bot/calculator.py` and `dubai_permit_bot/app.py`).

The Python code is shallowly embedded: dictionaries of fee components
become structures of integers, Python strings become `String`, Python
`None` defaults become `Option`, and the fallible entry point
`calculate_estimated_fees` is embedded with an explicit `Except` for the
internal `raise` / `except` control flow.  Machine integers are modelled
as `Int` (Python integers are unbounded, so no wrap-around is needed).
-/

namespace DubaiPermitBot

/-! ### String helpers (Python `in`, `str.lower`, `str(list)`) -/

/-- Boolean test that the first character list starts with the second.
Used to embed Python substring search. -/
def startsWithChars : List Char → List Char → Bool
  | [], _ => true
  | _ :: _, [] => false
  | a :: as, b :: bs => a == b && startsWithChars as bs

/-- Boolean test that `p` occurs contiguously inside the second list. -/
def containsChars (p : List Char) : List Char → Bool
  | [] => startsWithChars p []
  | c :: rest => startsWithChars p (c :: rest) || containsChars p rest

/-- Python `pat in hay` on strings: substring containment. -/
def strContains (hay pat : String) : Bool :=
  containsChars pat.toList hay.toList

/-- ASCII lowercasing of one character (Python `str.lower` on the ASCII
catalog strings used by the app). -/
def lowerChar (c : Char) : Char :=
  if 65 ≤ c.toNat ∧ c.toNat ≤ 90 then Char.ofNat (c.toNat + 32) else c

/-- Python `s.lower()` (ASCII; the event catalog, venue names and
keywords are all ASCII).  Defined over the character list so that it
reduces by kernel computation. -/
def strToLower (s : String) : String :=
  String.mk (s.toList.map lowerChar)

/-- Whitespace test for Python `str.strip` (the characters that occur in
the app's inputs). -/
def isSpaceChar (c : Char) : Bool :=
  c == ' ' || c == '\t' || c == '\n' || c == '\r'

/-- Python `s.strip()`: drop leading and trailing whitespace. -/
def pyStrip (s : String) : String :=
  String.mk (((s.toList.dropWhile isSpaceChar).reverse.dropWhile isSpaceChar).reverse)

/-- A single-quote character, used by `pyRepr` (Python quotes list
elements with single quotes). -/
def squoteChar : Char := Char.ofNat 39

/-- Python `repr` of a plain string (no embedded quotes arise in the
event-type catalog, so no escaping is modelled). -/
def pyRepr (s : String) : String :=
  String.singleton squoteChar ++ s ++ String.singleton squoteChar

/-- Python `str(...)` of a list of strings, e.g. `['DJ Event']`. -/
def pyReprList (xs : List String) : String :=
  "[" ++ String.intercalate ", " (xs.map pyRepr) ++ "]"

/-! ### The fee calculator (`calculator.py`, `calculate_event_permit_cost`) -/

/-- The `cost_components` dictionary built by
`calculate_event_permit_cost`: one integer per fee component, in the
key order of the Python dict literal. -/
structure CostComponents where
  base_fee : Int
  per_day_fee : Int
  performer_fee : Int
  e_permit_fee : Int
  knowledge_dirham : Int
  innovation_dirham : Int
  dtcm_management_fee : Int
  ded_fee : Int
  urgent_fee : Int
  amendment_fee : Int
deriving Repr, DecidableEq

/-- `cost_components.values()`, in dict insertion order. -/
def componentsList (c : CostComponents) : List Int :=
  [c.base_fee, c.per_day_fee, c.performer_fee, c.e_permit_fee,
   c.knowledge_dirham, c.innovation_dirham, c.dtcm_management_fee,
   c.ded_fee, c.urgent_fee, c.amendment_fee]

/-- Python `sum(cost_components.values())`. -/
def componentsSum (c : CostComponents) : Int :=
  (componentsList c).sum

/-- The dictionary returned by `calculate_event_permit_cost`. -/
structure FeeBreakdown where
  total_cost : Int
  cost_breakdown : CostComponents
  calculation_notes : List String
deriving Repr, DecidableEq

/-- Python `str(venue_type)` where `venue_type : Option String`
(`None` prints as `None`). -/
def pyStrOfOpt : Option String → String
  | some s => s
  | none => "None"

/-- The `cost_components` dict literal that opens
`calculate_event_permit_cost` ("Initialize cost components"). -/
def initComponents (event_type : String)
    (is_ticketed is_urgent is_amendment : Bool) : CostComponents :=
  { base_fee := 0
    per_day_fee := 0
    performer_fee := 0
    e_permit_fee := 200
    knowledge_dirham := 10
    innovation_dirham := 10
    dtcm_management_fee := if event_type == "entertainment" then 500 else 0
    ded_fee := if event_type == "business" then 50 else 0
    urgent_fee := if is_urgent then 500 else 0
    amendment_fee :=
      if is_amendment then 800
      else if !is_ticketed && is_amendment then 520 else 0 }

/-- The "Calculate base fee based on event type and ticketing status"
section of `calculate_event_permit_cost` (writes `base_fee` and, for
non-ticketed entertainment, `performer_fee`). -/
def applyBaseFee (event_type : String) (is_ticketed : Bool)
    (venue_type : Option String) (num_performers : Int)
    (has_exhibition has_conference : Bool) (c : CostComponents) :
    CostComponents :=
  if event_type == "business" then
    if is_ticketed then
      if has_exhibition && has_conference then { c with base_fee := 1500 }
      else if has_exhibition then { c with base_fee := 1000 }
      else if has_conference then { c with base_fee := 1000 }
      else { c with base_fee := 1000 }
    else
      if has_exhibition && has_conference then { c with base_fee := 1500 }
      else if has_exhibition then { c with base_fee := 1000 }
      else if has_conference then { c with base_fee := 250 }
      else { c with base_fee := 1000 }
  else if event_type == "entertainment" then
    if is_ticketed then { c with base_fee := 800 }
    else if venue_type == some "hotel" then
      { c with base_fee := 800, performer_fee := 750 * num_performers }
    else
      { c with base_fee := 500, performer_fee := 350 * num_performers }
  else if event_type == "sports_charity" then
    { c with base_fee := 0 }
  else c

/-- The "Calculate per day fee" section of
`calculate_event_permit_cost` (writes `per_day_fee`). -/
def applyPerDayFee (event_type : String) (is_ticketed : Bool)
    (venue_type : Option String) (num_days : Int) (c : CostComponents) :
    CostComponents :=
  if event_type == "entertainment" && !is_ticketed then
    if venue_type == some "hotel" then
      { c with per_day_fee := 800 * num_days }
    else
      { c with per_day_fee := 500 * num_days }
  else
    { c with per_day_fee := if num_days > 1 then 800 * (num_days - 1) else 0 }

/-- The "Special cases for combined events" section of
`calculate_event_permit_cost` (overwrites `base_fee` when an award
ceremony is involved). -/
def applyAwardOverride (event_type : String) (is_ticketed : Bool)
    (venue_type : Option String)
    (has_exhibition has_conference has_award_ceremony : Bool)
    (c : CostComponents) : CostComponents :=
  if has_award_ceremony then
    if event_type == "business" then
      if is_ticketed then
        if has_conference && has_exhibition then
          { c with base_fee :=
              3070 - c.e_permit_fee - c.knowledge_dirham - c.innovation_dirham }
        else if has_conference then
          { c with base_fee :=
              2570 - c.e_permit_fee - c.knowledge_dirham - c.innovation_dirham }
        else
          { c with base_fee :=
              1520 - c.e_permit_fee - c.knowledge_dirham - c.innovation_dirham }
      else if venue_type == some "hotel" then
        if has_conference && has_exhibition then
          { c with base_fee :=
              3820 - c.performer_fee - c.e_permit_fee - c.knowledge_dirham - c.innovation_dirham }
        else if has_conference then
          { c with base_fee :=
              2790 - c.performer_fee - c.e_permit_fee - c.knowledge_dirham - c.innovation_dirham }
        else
          { c with base_fee :=
              2270 - c.performer_fee - c.e_permit_fee - c.knowledge_dirham - c.innovation_dirham }
      else
        if has_conference && has_exhibition then
          { c with base_fee := 2090 }
        else if has_conference then
          { c with base_fee :=
              2090 - c.performer_fee - c.e_permit_fee - c.knowledge_dirham - c.innovation_dirham }
        else
          { c with base_fee :=
              1570 - c.performer_fee - c.e_permit_fee - c.knowledge_dirham - c.innovation_dirham }
    else c
  else c

/-- Embedding of `calculate_event_permit_cost` from
`dubai_permit_bot/calculator.py`.  The Python defaults are
`venue_type=None`, `num_days=1`, `num_performers=0` and `False` for the
five boolean flags; callers of the embedding pass all arguments
explicitly.  The body is the sequence of the four commented sections of
the Python function, applied in program order to the components dict. -/
def calculate_event_permit_cost (event_type : String) (is_ticketed : Bool)
    (venue_type : Option String) (num_days : Int) (num_performers : Int)
    (is_urgent : Bool) (is_amendment : Bool) (has_exhibition : Bool)
    (has_conference : Bool) (has_award_ceremony : Bool) : FeeBreakdown :=
  let c0 := initComponents event_type is_ticketed is_urgent is_amendment
  let c1 := applyBaseFee event_type is_ticketed venue_type num_performers
    has_exhibition has_conference c0
  let c2 := applyPerDayFee event_type is_ticketed venue_type num_days c1
  let c3 := applyAwardOverride event_type is_ticketed venue_type
    has_exhibition has_conference has_award_ceremony c2
  -- Calculate total cost
  let total_cost := componentsSum c3
  -- Add calculation notes
  let n0 : List String := []
  let n1 :=
    if num_days > 1 && (event_type != "entertainment" || is_ticketed) then
      n0 ++ ["Added " ++ toString c3.per_day_fee ++ " AED for "
             ++ toString (num_days - 1) ++ " additional day(s)"]
    else n0
  let n2 :=
    if num_performers > 0 && event_type == "entertainment" && !is_ticketed then
      n1 ++ ["Added " ++ toString c3.performer_fee ++ " AED for "
             ++ toString num_performers ++ " performer(s) at "
             ++ pyStrOfOpt venue_type ++ " venue"]
    else n1
  let n3 :=
    if is_urgent then n2 ++ ["Added 500 AED urgent processing fee"] else n2
  let n4 :=
    if is_amendment then
      n3 ++ ["Added " ++ toString c3.amendment_fee ++ " AED amendment fee"]
    else n3
  { total_cost := total_cost, cost_breakdown := c3, calculation_notes := n4 }

/-! ### The app-to-calculator mapping (`map_event_data_to_calculator_params`) -/

/-- The fields of the `event_data` dictionary that
`map_event_data_to_calculator_params` reads (with the `.get` defaults
applied by the caller of the embedding where a key is absent:
`event_types = []`, `ticketing_type = "non_ticketed"`, `venue = ""`,
`no_of_days = 1`, `no_of_performers = 0`, `is_urgent = False`,
`is_amendment = False`). -/
structure EventData where
  event_types : List String
  ticketing_type : String
  venue : String
  no_of_days : Int
  no_of_performers : Int
  is_urgent : Bool
  is_amendment : Bool
deriving Repr, DecidableEq

/-- The parameter dictionary returned by
`map_event_data_to_calculator_params`. -/
structure CalcParams where
  event_type : String
  is_ticketed : Bool
  venue_type : Option String
  num_days : Int
  num_performers : Int
  is_urgent : Bool
  is_amendment : Bool
  has_exhibition : Bool
  has_conference : Bool
  has_award_ceremony : Bool
deriving Repr, DecidableEq

/-- Embedding of `map_event_data_to_calculator_params` from
`dubai_permit_bot/calculator.py`. -/
def map_event_data_to_calculator_params (d : EventData) : CalcParams :=
  let event_types := d.event_types
  -- Determine main event type based on collected data ('business' default)
  let et0 := "business"
  let entertainment_keywords := ["DJ Event", "Musical Event", "Comedy Show"]
  let et1 :=
    if entertainment_keywords.any (fun k => event_types.contains k) then
      "entertainment"
    else et0
  let et2 :=
    if (["sports", "charity", "marathon", "tournament"]).any
        (fun k => strContains (strToLower (pyReprList event_types)) k) then
      "sports_charity"
    else et1
  -- Determine if ticketed
  let is_ticketed :=
    d.ticketing_type == "paid_ticketed" || d.ticketing_type == "free_ticketed"
  -- Map venue type
  let venue_type :=
    if strContains (strToLower d.venue) "hotel" then some "hotel" else some "other"
  -- Check for specific event components
  let has_exhibition :=
    event_types.any (fun t => strContains (strToLower t) "exhibition")
  let has_conference :=
    event_types.any (fun t =>
      (["conference", "forum", "seminar", "summit", "meeting"]).any
        (fun k => strContains (strToLower t) k))
  let has_award_ceremony :=
    event_types.any (fun t => strContains (strToLower t) "award")
  { event_type := et2
    is_ticketed := is_ticketed
    venue_type := venue_type
    num_days := d.no_of_days
    num_performers := d.no_of_performers
    is_urgent := d.is_urgent
    is_amendment := d.is_amendment
    has_exhibition := has_exhibition
    has_conference := has_conference
    has_award_ceremony := has_award_ceremony }

/-- Python `calculate_event_permit_cost(**params)`. -/
def applyCalc (p : CalcParams) : FeeBreakdown :=
  calculate_event_permit_cost p.event_type p.is_ticketed p.venue_type
    p.num_days p.num_performers p.is_urgent p.is_amendment
    p.has_exhibition p.has_conference p.has_award_ceremony

/-- The fee computation pipeline: `map_event_data_to_calculator_params`
followed by `calculate_event_permit_cost`. -/
def compute_event_fee (d : EventData) : FeeBreakdown :=
  applyCalc (map_event_data_to_calculator_params d)

/-! ### The app entry point `calculate_estimated_fees` (`app.py`) -/

/-- The value passed to `calculate_estimated_fees`: either a mapping
(`dict`) of event data, or some non-mapping value. -/
inductive PyInput where
  | dict : EventData → PyInput
  | nonDict : PyInput
deriving Repr, DecidableEq

/-- The `try` body of `calculate_estimated_fees`: raises `ValueError`
("Event data must be a dictionary") when the input is not a mapping,
otherwise maps the data and computes the total cost. -/
def calculate_estimated_fees_body (v : PyInput) : Except String Int :=
  match v with
  | .nonDict => .error "Event data must be a dictionary"
  | .dict d => .ok (compute_event_fee d).total_cost

/-- What `calculate_estimated_fees` delivers to its caller: the returned
integer, and the error note shown via `st.error` (if any). -/
structure FeeCallResult where
  returned : Int
  error_note : Option String
deriving Repr, DecidableEq

/-- Embedding of `calculate_estimated_fees` from `dubai_permit_bot/app.py`:
the `except (ValueError, TypeError)` clause turns the internal raise into
the sentinel return value `0` plus the user-facing note. The embedding is
a total function, so no exception escapes to the caller. -/
def calculate_estimated_fees (v : PyInput) : FeeCallResult :=
  match calculate_estimated_fees_body v with
  | .ok t => { returned := t, error_note := none }
  | .error _ =>
      { returned := 0, error_note := some "Invalid event data for fee calculation" }

/-! ### Session state and button handlers (`app.py`) -/

/-- One entry of `st.session_state.chat_history` (the timestamp field is
presentation-only and not modelled). -/
structure ChatEntry where
  message : String
  is_bot : Bool
deriving Repr, DecidableEq

/-- The in-progress `st.session_state.event_data` dictionary: one
optional field per key the app ever writes (`none` = key absent). -/
structure EventRecord where
  event_classification : Option String
  ticketing_type : Option String
  event_name : Option String
  event_types : Option (List String)
  venue : Option String
  industry : Option String
  no_of_days : Option Int
  no_of_participants : Option Int
  no_of_performers : Option Int
  start_date : Option Int
  end_date : Option Int
  event_description : Option String
deriving Repr, DecidableEq

/-- The empty dictionary `{}`. -/
def emptyRecord : EventRecord :=
  { event_classification := none, ticketing_type := none, event_name := none
    event_types := none, venue := none, industry := none, no_of_days := none
    no_of_participants := none, no_of_performers := none, start_date := none
    end_date := none, event_description := none }

/-- The slice of `st.session_state` that the conversation logic reads and
writes (`debug_mode`, `error_count` and the click flags are plumbing and
not modelled). -/
structure SessionState where
  conversation_step : String
  event_data : EventRecord
  chat_history : List ChatEntry
  show_greeting : Bool
deriving Repr, DecidableEq

/-- Embedding of `add_to_chat`: append one entry to the transcript. -/
def add_to_chat (st : SessionState) (message : String) (is_bot : Bool) :
    SessionState :=
  { st with chat_history := st.chat_history ++ [{ message := message, is_bot := is_bot }] }

/-- Embedding of the `new_calc_clicked` branch of `handle_button_clicks`
(`app.py` lines 761-768): step back to greeting, reset the record, re-show
the greeting, and add a user chat message. -/
def handle_new_calc_click (st : SessionState) : SessionState :=
  let st1 := { st with conversation_step := "greeting" }
  let st2 := { st1 with event_data := emptyRecord }
  let st3 := { st2 with show_greeting := true }
  add_to_chat st3 "Let\x27s calculate fees for another event!" false

/-! ### The event-details form (`app.py`, `main`) -/

/-- The widget values present when the `collect_event_details` form is
submitted.  Dates are modelled as integers ordered like `datetime.date`. -/
structure FormInput where
  event_name : String
  event_types : List String
  venue : String
  industry : String
  no_of_days : Int
  no_of_participants : Int
  no_of_performers : Int
  start_date : Int
  end_date : Int
  event_description : String
deriving Repr, DecidableEq

/-- The `validation_errors` list built on form submission
(`app.py` lines 1029-1047), in program order. -/
def form_validation_errors (f : FormInput) : List String :=
  let e0 : List String := []
  let e1 :=
    if f.event_name = "" ∨ pyStrip f.event_name = "" then
      e0 ++ ["Event name is required"]
    else e0
  let e2 :=
    if f.event_types = [] then e1 ++ ["Please select at least one event type"]
    else e1
  let e3 :=
    if f.venue = "Select a venue..." then e2 ++ ["Please select a venue"] else e2
  let e4 :=
    if f.industry = "Select industry..." then e3 ++ ["Please select an industry"]
    else e3
  let e5 :=
    if f.no_of_participants ≤ 0 then
      e4 ++ ["Number of participants must be greater than 0"]
    else e4
  if f.start_date > f.end_date then e5 ++ ["End date must be after start date"]
  else e5

/-- The `st.session_state.event_data.update({...})` performed on a
successful submission. -/
def record_update_from_form (r : EventRecord) (f : FormInput) : EventRecord :=
  { r with
    event_name := some (pyStrip f.event_name)
    event_types := some f.event_types
    venue := some f.venue
    industry := some f.industry
    no_of_days := some f.no_of_days
    no_of_participants := some f.no_of_participants
    no_of_performers := some f.no_of_performers
    start_date := some f.start_date
    end_date := some f.end_date
    event_description :=
      some (if f.event_description = "" then "" else pyStrip f.event_description) }

/-- Read the session record back as the `event_data` mapping consumed by
the calculator, applying the Python `.get` defaults for absent keys
(the app never writes `is_urgent` / `is_amendment`, so they default to
`False`). -/
def eventDataOfRecord (r : EventRecord) : EventData :=
  { event_types := r.event_types.getD []
    ticketing_type := r.ticketing_type.getD "non_ticketed"
    venue := r.venue.getD ""
    no_of_days := r.no_of_days.getD 1
    no_of_performers := r.no_of_performers.getD 0
    is_urgent := false
    is_amendment := false }

/-- The fee chat message posted on a successful submission (Python
renders numbers with thousands separators; the embedding renders plain
digits, a presentation detail no property depends on). -/
def fee_message_text (event_name : String) (classification : String)
    (participants no_of_days fee : Int) : String :=
  "ESTIMATED GOVERNMENT FEES Event: " ++ event_name
    ++ " Classification: " ++ classification
    ++ " Participants: " ++ toString participants
    ++ " Duration: " ++ toString no_of_days ++ " day(s)"
    ++ " Estimated Total Fee: AED " ++ toString fee

/-- Embedding of the `if submitted:` branch of the
`collect_event_details` form (`app.py` lines 1024-1088): on validation
errors the state is untouched and the errors are surfaced; otherwise the
record is updated, two chat messages are added, and the step advances to
`show_results`.  Returns the new state and the surfaced error list. -/
def handle_details_submit (st : SessionState) (f : FormInput) :
    SessionState × List String :=
  let validation_errors := form_validation_errors f
  if validation_errors ≠ [] then
    (st, validation_errors)
  else
    let st1 := { st with event_data := record_update_from_form st.event_data f }
    let st2 := add_to_chat st1 ("Event Details Submitted: " ++ f.event_name) false
    let estimated_fee :=
      (calculate_estimated_fees (.dict (eventDataOfRecord st2.event_data))).returned
    let classification :=
      (st2.event_data.event_classification.getD "Unknown").capitalize
    let st3 := add_to_chat st2
      (fee_message_text f.event_name classification f.no_of_participants
        f.no_of_days estimated_fee) true
    ({ st3 with conversation_step := "show_results" }, [])

/-! ### Concrete records for the spec scenarios -/

/-- Record with only event type `Award Ceremony`, ticketed, 3 days,
urgent, not an amendment, other inputs at their defaults. -/
def awardCeremonyRecord : EventData :=
  { event_types := ["Award Ceremony"], ticketing_type := "paid_ticketed"
    venue := "", no_of_days := 3, no_of_performers := 0
    is_urgent := true, is_amendment := false }

/-- Record with only event type `DJ Event`, non-ticketed, 5 days, zero
performers, no urgency or amendment, other inputs at their defaults. -/
def djEventRecord : EventData :=
  { event_types := ["DJ Event"], ticketing_type := "non_ticketed"
    venue := "", no_of_days := 5, no_of_performers := 0
    is_urgent := false, is_amendment := false }

/-- A non-ticketed record: `DJ Event` at a hotel venue for 2 days. -/
def djHotelRecord : EventData :=
  { event_types := ["DJ Event"], ticketing_type := "non_ticketed"
    venue := "Dubai Hotel 1", no_of_days := 2, no_of_performers := 0
    is_urgent := false, is_amendment := false }

/-- Record with only event type `Conference`, ticketed, 1 day, not
urgent, not an amendment, other inputs at their defaults. -/
def conferenceRecord : EventData :=
  { event_types := ["Conference"], ticketing_type := "paid_ticketed"
    venue := "", no_of_days := 1, no_of_performers := 0
    is_urgent := false, is_amendment := false }

/-- A `show_results` session with a non-empty chat transcript. -/
def showResultsSession : SessionState :=
  { conversation_step := "show_results"
    event_data :=
      { emptyRecord with
          event_classification := some "external"
          ticketing_type := some "paid_ticketed" }
    chat_history := [{ message := "Welcome!", is_bot := true }]
    show_greeting := false }

/-- A `collect_event_details` session awaiting the details form. -/
def collectDetailsSession : SessionState :=
  { conversation_step := "collect_event_details"
    event_data := { emptyRecord with event_classification := some "external" }
    chat_history := []
    show_greeting := false }

/-- A form submission with an empty event name (validation must fail). -/
def emptyNameForm : FormInput :=
  { event_name := "", event_types := ["Conference"], venue := "Dubai Hotel 1"
    industry := "Healthcare", no_of_days := 1, no_of_participants := 50
    no_of_performers := 0, start_date := 0, end_date := 1
    event_description := "" }

/-! ### Stage lemmas for the calculator -/

/-- `applyBaseFee` writes only `base_fee` and `performer_fee`. -/
lemma applyBaseFee_fields (et : String) (it : Bool) (vt : Option String)
    (np : Int) (he hc : Bool) (c : CostComponents) :
    (applyBaseFee et it vt np he hc c).per_day_fee = c.per_day_fee ∧
    (applyBaseFee et it vt np he hc c).e_permit_fee = c.e_permit_fee ∧
    (applyBaseFee et it vt np he hc c).knowledge_dirham = c.knowledge_dirham ∧
    (applyBaseFee et it vt np he hc c).innovation_dirham = c.innovation_dirham ∧
    (applyBaseFee et it vt np he hc c).dtcm_management_fee = c.dtcm_management_fee ∧
    (applyBaseFee et it vt np he hc c).ded_fee = c.ded_fee ∧
    (applyBaseFee et it vt np he hc c).urgent_fee = c.urgent_fee ∧
    (applyBaseFee et it vt np he hc c).amendment_fee = c.amendment_fee := by
  unfold applyBaseFee
  split_ifs <;> exact ⟨rfl, rfl, rfl, rfl, rfl, rfl, rfl, rfl⟩

/-- `applyPerDayFee` writes only `per_day_fee`. -/
lemma applyPerDayFee_fields (et : String) (it : Bool) (vt : Option String)
    (nd : Int) (c : CostComponents) :
    (applyPerDayFee et it vt nd c).base_fee = c.base_fee ∧
    (applyPerDayFee et it vt nd c).performer_fee = c.performer_fee ∧
    (applyPerDayFee et it vt nd c).e_permit_fee = c.e_permit_fee ∧
    (applyPerDayFee et it vt nd c).knowledge_dirham = c.knowledge_dirham ∧
    (applyPerDayFee et it vt nd c).innovation_dirham = c.innovation_dirham ∧
    (applyPerDayFee et it vt nd c).dtcm_management_fee = c.dtcm_management_fee ∧
    (applyPerDayFee et it vt nd c).ded_fee = c.ded_fee ∧
    (applyPerDayFee et it vt nd c).urgent_fee = c.urgent_fee ∧
    (applyPerDayFee et it vt nd c).amendment_fee = c.amendment_fee := by
  unfold applyPerDayFee
  split_ifs <;> exact ⟨rfl, rfl, rfl, rfl, rfl, rfl, rfl, rfl, rfl⟩

/-- `applyAwardOverride` writes only `base_fee`. -/
lemma applyAwardOverride_fields (et : String) (it : Bool) (vt : Option String)
    (he hc ha : Bool) (c : CostComponents) :
    (applyAwardOverride et it vt he hc ha c).per_day_fee = c.per_day_fee ∧
    (applyAwardOverride et it vt he hc ha c).performer_fee = c.performer_fee ∧
    (applyAwardOverride et it vt he hc ha c).e_permit_fee = c.e_permit_fee ∧
    (applyAwardOverride et it vt he hc ha c).knowledge_dirham = c.knowledge_dirham ∧
    (applyAwardOverride et it vt he hc ha c).innovation_dirham = c.innovation_dirham ∧
    (applyAwardOverride et it vt he hc ha c).dtcm_management_fee = c.dtcm_management_fee ∧
    (applyAwardOverride et it vt he hc ha c).ded_fee = c.ded_fee ∧
    (applyAwardOverride et it vt he hc ha c).urgent_fee = c.urgent_fee ∧
    (applyAwardOverride et it vt he hc ha c).amendment_fee = c.amendment_fee := by
  unfold applyAwardOverride
  split_ifs <;> exact ⟨rfl, rfl, rfl, rfl, rfl, rfl, rfl, rfl, rfl⟩

/-- The `performer_fee` written by `applyBaseFee`. -/
lemma applyBaseFee_performer_fee (et : String) (it : Bool) (vt : Option String)
    (np : Int) (he hc : Bool) (c : CostComponents) :
    (applyBaseFee et it vt np he hc c).performer_fee =
      if et == "entertainment" && !it then
        (if vt == some "hotel" then 750 else 350) * np
      else c.performer_fee := by
  unfold applyBaseFee
  split_ifs <;> simp_all

/-- The `per_day_fee` written by `applyPerDayFee`. -/
lemma applyPerDayFee_per_day_fee (et : String) (it : Bool) (vt : Option String)
    (nd : Int) (c : CostComponents) :
    (applyPerDayFee et it vt nd c).per_day_fee =
      if et == "entertainment" && !it then
        (if vt == some "hotel" then 800 else 500) * nd
      else if nd > 1 then 800 * (nd - 1) else 0 := by
  unfold applyPerDayFee
  split_ifs <;> simp_all

/-- The base fee written by `applyBaseFee` is non-negative. -/
lemma applyBaseFee_base_fee_nonneg (et : String) (it : Bool) (vt : Option String)
    (np : Int) (he hc : Bool) (c : CostComponents) (h : 0 ≤ c.base_fee) :
    0 ≤ (applyBaseFee et it vt np he hc c).base_fee := by
  unfold applyBaseFee
  split_ifs <;> simp_all

/-- Unfolding of the calculator result: the returned breakdown is the
four sections applied in program order. -/
lemma calc_breakdown_def (et : String) (it : Bool) (vt : Option String)
    (nd np : Int) (iu ia he hc ha : Bool) :
    (calculate_event_permit_cost et it vt nd np iu ia he hc ha).cost_breakdown =
      applyAwardOverride et it vt he hc ha
        (applyPerDayFee et it vt nd
          (applyBaseFee et it vt np he hc (initComponents et it iu ia))) := rfl

/-- The returned total is the sum of the returned components. -/
lemma calc_total_def (et : String) (it : Bool) (vt : Option String)
    (nd np : Int) (iu ia he hc ha : Bool) :
    (calculate_event_permit_cost et it vt nd np iu ia he hc ha).total_cost =
      componentsSum
        ((calculate_event_permit_cost et it vt nd np iu ia he hc ha).cost_breakdown) := rfl

/-- Closed formulas for the nine components other than `base_fee`. -/
lemma calc_component_formulas (et : String) (it : Bool) (vt : Option String)
    (nd np : Int) (iu ia he hc ha : Bool) :
    (calculate_event_permit_cost et it vt nd np iu ia he hc ha).cost_breakdown.e_permit_fee = 200 ∧
    (calculate_event_permit_cost et it vt nd np iu ia he hc ha).cost_breakdown.knowledge_dirham = 10 ∧
    (calculate_event_permit_cost et it vt nd np iu ia he hc ha).cost_breakdown.innovation_dirham = 10 ∧
    (calculate_event_permit_cost et it vt nd np iu ia he hc ha).cost_breakdown.dtcm_management_fee
      = (if et == "entertainment" then 500 else 0) ∧
    (calculate_event_permit_cost et it vt nd np iu ia he hc ha).cost_breakdown.ded_fee
      = (if et == "business" then 50 else 0) ∧
    (calculate_event_permit_cost et it vt nd np iu ia he hc ha).cost_breakdown.urgent_fee
      = (if iu then 500 else 0) ∧
    (calculate_event_permit_cost et it vt nd np iu ia he hc ha).cost_breakdown.amendment_fee
      = (if ia then 800 else if !it && ia then 520 else 0) ∧
    (calculate_event_permit_cost et it vt nd np iu ia he hc ha).cost_breakdown.performer_fee
      = (if et == "entertainment" && !it then
          (if vt == some "hotel" then 750 else 350) * np else 0) ∧
    (calculate_event_permit_cost et it vt nd np iu ia he hc ha).cost_breakdown.per_day_fee
      = (if et == "entertainment" && !it then
          (if vt == some "hotel" then 800 else 500) * nd
        else if nd > 1 then 800 * (nd - 1) else 0) := by
  rw [calc_breakdown_def]
  obtain ⟨a1, a2, a3, a4, a5, a6, a7, a8, a9⟩ :=
    applyAwardOverride_fields et it vt he hc ha
      (applyPerDayFee et it vt nd (applyBaseFee et it vt np he hc (initComponents et it iu ia)))
  obtain ⟨p1, p2, p3, p4, p5, p6, p7, p8, p9⟩ :=
    applyPerDayFee_fields et it vt nd (applyBaseFee et it vt np he hc (initComponents et it iu ia))
  obtain ⟨b1, b2, b3, b4, b5, b6, b7, b8⟩ :=
    applyBaseFee_fields et it vt np he hc (initComponents et it iu ia)
  refine ⟨?_, ?_, ?_, ?_, ?_, ?_, ?_, ?_, ?_⟩
  · rw [a3, p3, b2]; rfl
  · rw [a4, p4, b3]; rfl
  · rw [a5, p5, b4]; rfl
  · rw [a6, p6, b5]; rfl
  · rw [a7, p7, b6]; rfl
  · rw [a8, p8, b7]; rfl
  · rw [a9, p9, b8]; rfl
  · rw [a2, p2, applyBaseFee_performer_fee]; rfl
  · rw [a1, applyPerDayFee_per_day_fee]

/-- The final `base_fee` is non-negative: the award-ceremony override
only fires for business events, whose `performer_fee` is zero. -/
lemma calc_base_fee_nonneg (et : String) (it : Bool) (vt : Option String)
    (nd np : Int) (iu ia he hc ha : Bool) :
    0 ≤ (calculate_event_permit_cost et it vt nd np iu ia he hc ha).cost_breakdown.base_fee := by
  rw [calc_breakdown_def]
  obtain ⟨p1, p2, p3, p4, p5, p6, p7, p8, p9⟩ :=
    applyPerDayFee_fields et it vt nd (applyBaseFee et it vt np he hc (initComponents et it iu ia))
  have hbase : 0 ≤ (applyPerDayFee et it vt nd
      (applyBaseFee et it vt np he hc (initComponents et it iu ia))).base_fee := by
    rw [p1]
    exact applyBaseFee_base_fee_nonneg et it vt np he hc _ (by simp [initComponents])
  have hperf : (et == "business") = true →
      (applyPerDayFee et it vt nd
        (applyBaseFee et it vt np he hc (initComponents et it iu ia))).performer_fee = 0 := by
    intro hb
    rw [p2, applyBaseFee_performer_fee]
    simp_all [initComponents]
  have hep : (applyPerDayFee et it vt nd
      (applyBaseFee et it vt np he hc (initComponents et it iu ia))).e_permit_fee = 200 := by
    rw [p3]
    obtain ⟨b1, b2, _⟩ := applyBaseFee_fields et it vt np he hc (initComponents et it iu ia)
    rw [b2]; rfl
  have hkd : (applyPerDayFee et it vt nd
      (applyBaseFee et it vt np he hc (initComponents et it iu ia))).knowledge_dirham = 10 := by
    rw [p4]
    obtain ⟨b1, b2, b3, _⟩ := applyBaseFee_fields et it vt np he hc (initComponents et it iu ia)
    rw [b3]; rfl
  have hid : (applyPerDayFee et it vt nd
      (applyBaseFee et it vt np he hc (initComponents et it iu ia))).innovation_dirham = 10 := by
    rw [p5]
    obtain ⟨b1, b2, b3, b4, _⟩ := applyBaseFee_fields et it vt np he hc (initComponents et it iu ia)
    rw [b4]; rfl
  unfold applyAwardOverride
  split_ifs <;> simp_all

/-- If some validation check fails, the validation-error list built on
form submission is non-empty. -/
lemma form_validation_errors_ne_nil (f : FormInput)
    (hfail : pyStrip f.event_name = "" ∨ f.event_types = [] ∨
      f.venue = "Select a venue..." ∨ f.industry = "Select industry..." ∨
      f.no_of_participants ≤ 0 ∨ f.start_date > f.end_date) :
    form_validation_errors f ≠ [] := by
  unfold form_validation_errors
  split_ifs <;> simp_all

/-! ### Claim theorems -/

/-- C1: for every input, the breakdown returned by
`calculate_event_permit_cost` reconciles: `total_cost` equals the sum of
the values of the `cost_breakdown` map it returns. -/
theorem total_cost_reconciles (et : String) (it : Bool) (vt : Option String)
    (nd np : Int) (iu ia he hc ha : Bool) :
    (calculate_event_permit_cost et it vt nd np iu ia he hc ha).total_cost =
      (componentsList
        (calculate_event_permit_cost et it vt nd np iu ia he hc ha).cost_breakdown).sum := rfl

/-- C2 (counterexample): for the `Award Ceremony`/ticketed/3-day/urgent
record, the fee computation does NOT return `total_cost = 3620` as the
spec states. -/
theorem award_scenario_total_ne_3620 :
    (compute_event_fee awardCeremonyRecord).total_cost ≠ 3620 := by decide

/-- C2 (amended): for the `Award Ceremony`/ticketed/3-day/urgent record
the fee computation returns `total_cost = 3670`: the award-ceremony base
absorbs the e-permit fee and the two dirhams (`1520 - 220 = 1300`), and
the business DED fee of 50 is added on top of `220 + 1600 + 500`. -/
theorem award_scenario_total_eq_3670 :
    (compute_event_fee awardCeremonyRecord).total_cost = 3670 := by decide

/-- C3 (counterexample): for the `DJ Event`/non-ticketed/5-day record,
the per-day fee component is not 0 and the total is not 1520. -/
theorem dj_scenario_not_spec_values :
    ¬ ((compute_event_fee djEventRecord).cost_breakdown.per_day_fee = 0 ∧
       (compute_event_fee djEventRecord).total_cost = 1520) := by decide

/-- C3 (amended): for the `DJ Event`/non-ticketed/5-day record the
per-day fee is `500 * 5 = 2500` (non-ticketed entertainment is billed
per day, not exempted) and `total_cost = 3720`. -/
theorem dj_scenario_values :
    (compute_event_fee djEventRecord).cost_breakdown.per_day_fee = 2500 ∧
    (compute_event_fee djEventRecord).total_cost = 3720 := by decide

/-- C4 (counterexample): a non-ticketed record (`DJ Event` at a hotel
venue for 2 days) has a non-zero additional-days (per-day) fee. -/
theorem nonticketed_per_day_fee_can_be_positive :
    (compute_event_fee djHotelRecord).cost_breakdown.per_day_fee ≠ 0 := by decide

/-- C4 (amended): for every non-ticketed input, the per-day fee is the
venue day rate (800 hotel / 500 other) times `num_days` when the event
type is entertainment, and `800 * (num_days - 1)` (0 for a single day)
otherwise — non-ticketed status does not suppress the per-day fee. -/
theorem nonticketed_per_day_fee_formula (et : String) (vt : Option String)
    (nd np : Int) (iu ia he hc ha : Bool) :
    (calculate_event_permit_cost et false vt nd np iu ia he hc ha).cost_breakdown.per_day_fee =
      if et == "entertainment" then (if vt == some "hotel" then 800 else 500) * nd
      else if nd > 1 then 800 * (nd - 1) else 0 := by
  obtain ⟨-, -, -, -, -, -, -, -, f9⟩ :=
    calc_component_formulas et false vt nd np iu ia he hc ha
  rw [f9]; simp

/-- C5 (counterexample): from a `show_results` state with a non-empty
transcript, the restart action does not satisfy the claimed conjunction:
the chat transcript is not cleared. -/
theorem new_calc_does_not_clear_transcript :
    ¬ ((handle_new_calc_click showResultsSession).event_data = emptyRecord ∧
       (handle_new_calc_click showResultsSession).chat_history = [] ∧
       (handle_new_calc_click showResultsSession).conversation_step = "greeting") := by
  decide

/-- C5 (amended): the restart action clears the in-progress event record,
returns the conversation step to `greeting` and re-enables the greeting,
but appends a confirmation message to the chat transcript instead of
clearing it. -/
theorem new_calc_click_behavior (st : SessionState) :
    handle_new_calc_click st =
      { conversation_step := "greeting"
        event_data := emptyRecord
        chat_history := st.chat_history ++
          [{ message := "Let\x27s calculate fees for another event!", is_bot := false }]
        show_greeting := true } := rfl

/-- C6: when `calculate_estimated_fees` is given an `event_data` value
that is not a mapping, it returns the sentinel total 0 together with the
explanatory error note, and (the embedding being a total function) no
exception propagates to the caller. -/
theorem estimated_fees_non_mapping_returns_zero :
    calculate_estimated_fees PyInput.nonDict =
      { returned := 0, error_note := some "Invalid event data for fee calculation" } := rfl

/-- C7: when the `collect_event_details` form is submitted and any
validation check fails (empty event name, no event type selected, venue
or industry not selected, participants not at least 1, start date after
end date), the conversation step stays at `collect_event_details` and
the in-progress event record is unchanged. -/
theorem details_submit_failure_keeps_state (st : SessionState) (f : FormInput)
    (hstep : st.conversation_step = "collect_event_details")
    (hfail : pyStrip f.event_name = "" ∨ f.event_types = [] ∨
      f.venue = "Select a venue..." ∨ f.industry = "Select industry..." ∨
      f.no_of_participants ≤ 0 ∨ f.start_date > f.end_date) :
    (handle_details_submit st f).1.conversation_step = "collect_event_details" ∧
    (handle_details_submit st f).1.event_data = st.event_data := by
  have hne := form_validation_errors_ne_nil f hfail
  simp only [handle_details_submit]
  rw [if_pos hne]
  exact ⟨hstep, rfl⟩

/-- Witness for C7: a concrete `collect_event_details` session and a form
with an empty event name. -/
theorem details_submit_failure_keeps_state_witness :
    (handle_details_submit collectDetailsSession emptyNameForm).1.conversation_step
        = "collect_event_details" ∧
    (handle_details_submit collectDetailsSession emptyNameForm).1.event_data
        = collectDetailsSession.event_data :=
  details_submit_failure_keeps_state collectDetailsSession emptyNameForm rfl
    (Or.inl (by decide))

/-- C8: for the `Conference`/ticketed/1-day record (no urgency, no
amendment), the fee computation returns `total_cost = 1270`. -/
theorem conference_scenario_total_eq_1270 :
    (compute_event_fee conferenceRecord).total_cost = 1270 := by decide

/-- C9: whenever `is_amendment` is true the amendment fee component is
exactly 800 regardless of ticketing, and whenever it is false the
component is 0 — so the 520 branch of the amendment-fee conditional is
unreachable. -/
theorem amendment_fee_is_800_or_0 (et : String) (it : Bool) (vt : Option String)
    (nd np : Int) (iu he hc ha : Bool) :
    (calculate_event_permit_cost et it vt nd np iu true he hc ha).cost_breakdown.amendment_fee
        = 800 ∧
    (calculate_event_permit_cost et it vt nd np iu false he hc ha).cost_breakdown.amendment_fee
        = 0 := by
  obtain ⟨-, -, -, -, -, -, h1, -, -⟩ :=
    calc_component_formulas et it vt nd np iu true he hc ha
  obtain ⟨-, -, -, -, -, -, h2, -, -⟩ :=
    calc_component_formulas et it vt nd np iu false he hc ha
  exact ⟨by rw [h1]; rfl, by rw [h2]; simp⟩

/-- C10: for every input with `num_days ≥ 1` and `num_performers ≥ 0`,
every component of the returned `cost_breakdown` is non-negative and the
total is at least 220 (e-permit 200 + knowledge dirham 10 + innovation
dirham 10). -/
theorem calc_components_nonneg_and_total_ge_220 (et : String) (it : Bool)
    (vt : Option String) (nd np : Int) (iu ia he hc ha : Bool)
    (hnd : 1 ≤ nd) (hnp : 0 ≤ np) :
    (∀ x ∈ componentsList
        (calculate_event_permit_cost et it vt nd np iu ia he hc ha).cost_breakdown, 0 ≤ x) ∧
    220 ≤ (calculate_event_permit_cost et it vt nd np iu ia he hc ha).total_cost := by
  obtain ⟨f1, f2, f3, f4, f5, f6, f7, f8, f9⟩ :=
    calc_component_formulas et it vt nd np iu ia he hc ha
  have hb := calc_base_fee_nonneg et it vt nd np iu ia he hc ha
  have hpd : 0 ≤ (calculate_event_permit_cost et it vt nd np iu ia he hc ha).cost_breakdown.per_day_fee := by
    rw [f9]; split_ifs <;> omega
  have hpf : 0 ≤ (calculate_event_permit_cost et it vt nd np iu ia he hc ha).cost_breakdown.performer_fee := by
    rw [f8]; split_ifs <;> omega
  have hdtcm : 0 ≤ (calculate_event_permit_cost et it vt nd np iu ia he hc ha).cost_breakdown.dtcm_management_fee := by
    rw [f4]; split_ifs <;> omega
  have hded : 0 ≤ (calculate_event_permit_cost et it vt nd np iu ia he hc ha).cost_breakdown.ded_fee := by
    rw [f5]; split_ifs <;> omega
  have hurg : 0 ≤ (calculate_event_permit_cost et it vt nd np iu ia he hc ha).cost_breakdown.urgent_fee := by
    rw [f6]; split_ifs <;> omega
  have hamd : 0 ≤ (calculate_event_permit_cost et it vt nd np iu ia he hc ha).cost_breakdown.amendment_fee := by
    rw [f7]; split_ifs <;> omega
  constructor
  · intro x hx
    simp only [componentsList, List.mem_cons, List.not_mem_nil, or_false] at hx
    rcases hx with rfl | rfl | rfl | rfl | rfl | rfl | rfl | rfl | rfl | rfl
    · exact hb
    · exact hpd
    · exact hpf
    · rw [f1]; omega
    · rw [f2]; omega
    · rw [f3]; omega
    · exact hdtcm
    · exact hded
    · exact hurg
    · exact hamd
  · rw [calc_total_def]
    simp only [componentsSum, componentsList, List.sum_cons, List.sum_nil, add_zero]
    rw [f1, f2, f3, f4, f5, f6, f7, f8, f9]
    split_ifs <;> omega

/-- Witness for C10: the bound applied to a ticketed business conference
with 1 day and 0 performers. -/
theorem calc_components_nonneg_witness :
    220 ≤ (calculate_event_permit_cost "business" true none 1 0 false false
      false true false).total_cost :=
  (calc_components_nonneg_and_total_ge_220 "business" true none 1 0 false false
    false true false (by decide) (by decide)).2

end DubaiPermitBot
